import Mathlib

/-!
Verification of the PeptIQ trend-detection and alerting pipeline
(workflows/trend-detection/detector.py) against its natural-language
specification.

The pipeline is embedded shallowly.  A pandas dataframe row becomes a
`TestRecord`; nullable numeric cells become `Option ℚ` (Python floats are
modelled as exact rationals; a `none` stands for a null/NaN cell, and the
pandas rule that any comparison against NaN is false is reproduced by
matching on `Option`).  The detectors become pure functions over
`List TestRecord`, the working set handed to them in descending
`createdAt` order by the record source.  The two external collaborators
are modelled at the boundary: the text-generation response is an opaque
`String` parameter, and the webhook sink is modelled by returning the
list of messages that would be posted.
-/

namespace PeptIQ

/-- Severity of a finding, an ordered enumeration INFO < WARNING < CRITICAL.
The source represents these as the strings INFO, WARNING, CRITICAL. -/
inductive Severity where
  | INFO
  | WARNING
  | CRITICAL
  deriving DecidableEq, Repr

/-- One completed lab test record, a row of the working-set dataframe
returned by fetch_recent_tests.  Field names follow the SELECT column
aliases of the source query. -/
structure TestRecord where
  id : Nat
  tracking_id : String
  peptideType : String
  supplierName : String
  purity : Option ℚ
  endotoxin : Option ℚ
  residualTfa : Option ℚ
  createdAt : Int
  aiGrade : Option String
  verified : Option Bool
  deriving DecidableEq, Repr

/-- The purity values of the rows whose purity cell is not null, in row
order.  This is what pandas skipna aggregation operates on. -/
def presentPurities (rs : List TestRecord) : List ℚ :=
  rs.filterMap (fun r => r.purity)

/-- Mean of the non-null purity values of a slice, as computed by the
pandas mean with skipna: `none` models the NaN returned on an empty or
all-null slice. -/
def optMean (rs : List TestRecord) : Option ℚ :=
  match presentPurities rs with
  | [] => none
  | ps => some (ps.sum / (ps.length : ℚ))

/-- Round to the nearest integer, ties to even, mirroring the Python
built-in round. -/
def roundHalfEven (q : ℚ) : Int :=
  if q - (⌊q⌋ : ℚ) < 1/2 then ⌊q⌋
  else if (1:ℚ)/2 < q - (⌊q⌋ : ℚ) then ⌊q⌋ + 1
  else if ⌊q⌋ % 2 = 0 then ⌊q⌋ else ⌊q⌋ + 1

/-- Round to one decimal place, mirroring round(x, 1) in the source
(used only for the presentation fields of a finding, never for a
threshold decision). -/
def round1 (q : ℚ) : ℚ := (roundHalfEven (10 * q) : ℚ) / 10

/-- Helper for uniqueFirst: keeps the elements not yet seen, in order. -/
def uniqueFirstAux (seen : List String) : List String → List String
  | [] => []
  | x :: xs =>
      if x ∈ seen then uniqueFirstAux seen xs
      else x :: uniqueFirstAux (x :: seen) xs

/-- Distinct values of a column in first-appearance order, as produced by
the pandas unique. -/
def uniqueFirst (l : List String) : List String := uniqueFirstAux [] l

/-- Insert a record into a list sorted ascending by createdAt. -/
def insertAsc (r : TestRecord) : List TestRecord → List TestRecord
  | [] => [r]
  | x :: xs =>
      if r.createdAt ≤ x.createdAt then r :: x :: xs else x :: insertAsc r xs

/-- Stable sort ascending by createdAt, modelling
sort_values on the createdAt column. -/
def sortAsc : List TestRecord → List TestRecord
  | [] => []
  | x :: xs => insertAsc x (sortAsc xs)

/-- The rows of the working set belonging to one supplier, in working-set
order, modelling the boolean-mask selection on supplierName. -/
def supplierRecords (df : List TestRecord) (s : String) : List TestRecord :=
  df.filter (fun r => r.supplierName == s)

/-- A supplier quality-decline finding, one dict appended by
detect_declining_suppliers. -/
structure DeclineFinding where
  supplier : String
  peptide : String
  previous_avg : ℚ
  recent_avg : ℚ
  drop : ℚ
  sample_count : Nat
  severity : Severity
  deriving DecidableEq, Repr

/-- Mean purity of the first three records of the (ascending-sorted)
supplier subsequence: the head(3) slice of the source. -/
def recentAvgOf (sdf : List TestRecord) : Option ℚ := optMean (sdf.take 3)

/-- Mean purity of positions [3,6) of the supplier subsequence when more
than three records exist, else the fallback to the recent average: the
iloc[3:6] slice guarded by the len > 3 conditional of the source. -/
def previousAvgOf (sdf : List TestRecord) : Option ℚ :=
  if 3 < sdf.length then optMean ((sdf.drop 3).take 3) else recentAvgOf sdf

/-- The decline finding produced for one supplier, if any: the body of
the per-supplier loop of detect_declining_suppliers. -/
def declineFor (df : List TestRecord) (s : String) : Option DeclineFinding :=
  let sdf := sortAsc (supplierRecords df s)
  if 4 ≤ sdf.length then
    match previousAvgOf sdf, recentAvgOf sdf with
    | some previous, some recent =>
      if 2.0 < previous - recent then
        some { supplier := s
               peptide := ((sdf.head?).map (fun r => r.peptideType)).getD ""
               previous_avg := round1 previous
               recent_avg := round1 recent
               drop := round1 (previous - recent)
               sample_count := sdf.length
               severity :=
                 if 5.0 < previous - recent then Severity.CRITICAL
                 else Severity.WARNING }
      else none
    | _, _ => none
  else none

/-- detect_declining_suppliers: one pass over the distinct suppliers in
first-appearance order, appending at most one finding per supplier. -/
def detect_declining_suppliers (df : List TestRecord) : List DeclineFinding :=
  (uniqueFirst (df.map (fun r => r.supplierName))).filterMap (declineFor df)

/-- A batch-variance finding, one dict appended by detect_batch_variance.
The source stores round(std_dev, 1); the sample standard deviation is an
irrational square root, so the model carries its square (the sample
variance) instead.  No threshold decision reads this field. -/
structure VarianceFinding where
  supplier : String
  peptide : String
  mean : Option ℚ
  std_dev_sq : Option ℚ
  range : ℚ
  batches : Nat
  severity : Severity
  deriving DecidableEq, Repr

/-- Sample variance (ddof = 1) of the non-null purity values, the square
of the pandas std: NaN (none) when fewer than two values are present. -/
def sampleVarianceOf (rs : List TestRecord) : Option ℚ :=
  let ps := presentPurities rs
  if 2 ≤ ps.length then
    some (((ps.map (fun x => (x - ps.sum / (ps.length : ℚ)) ^ 2)).sum) /
      ((ps.length : ℚ) - 1))
  else none

/-- Max minus min of the non-null purity values, the range computed from
the pandas max and min with skipna; none models the NaN of an all-null
column. -/
def optRange (rs : List TestRecord) : Option ℚ :=
  match presentPurities rs with
  | [] => none
  | p :: ps => some (ps.foldl max p - ps.foldl min p)

/-- The variance finding produced for one supplier, if any: the body of
the per-supplier loop of detect_batch_variance (no re-sort here). -/
def varianceFor (df : List TestRecord) (s : String) : Option VarianceFinding :=
  let sdf := supplierRecords df s
  if 3 ≤ sdf.length then
    match optRange sdf with
    | some range_purity =>
      if 5.0 < range_purity then
        some { supplier := s
               peptide := ((sdf.head?).map (fun r => r.peptideType)).getD ""
               mean := (optMean sdf).map round1
               std_dev_sq := sampleVarianceOf sdf
               range := round1 range_purity
               batches := sdf.length
               severity := Severity.WARNING }
      else none
    | none => none
  else none

/-- detect_batch_variance: one pass over the distinct suppliers in
first-appearance order, appending at most one finding per supplier. -/
def detect_batch_variance (df : List TestRecord) : List VarianceFinding :=
  (uniqueFirst (df.map (fun r => r.supplierName))).filterMap (varianceFor df)

/-- A per-record safety finding, one dict appended by
detect_safety_concerns. -/
structure SafetyFinding where
  tracking_id : String
  supplier : String
  peptide : String
  concerns : List String
  severity : Severity
  deriving DecidableEq, Repr

/-- The endotoxin check of detect_safety_concerns: starting from the
initial empty concern list and INFO severity, appends a concern and
assigns the severity when endotoxin is present and above 1.0. -/
def endotoxinCheck (row : TestRecord) : List String × Severity :=
  match row.endotoxin with
  | some e =>
      if 1.0 < e then
        (["High endotoxin: " ++ toString e ++ " EU/mg"],
         if 2.0 < e then Severity.CRITICAL else Severity.WARNING)
      else ([], Severity.INFO)
  | none => ([], Severity.INFO)

/-- The residual-TFA check of detect_safety_concerns, run after the
endotoxin check on its accumulated concern list and severity: when
residualTfa is present and above 1.5 it appends a concern and assigns
severity WARNING by plain reassignment, exactly as the source does. -/
def tfaCheck (row : TestRecord) (acc : List String × Severity) :
    List String × Severity :=
  match row.residualTfa with
  | some t =>
      if 1.5 < t then
        (acc.1 ++ ["High residual TFA: " ++ toString t ++ "%"],
         Severity.WARNING)
      else acc
  | none => acc

/-- The safety finding produced for one record, if any: the body of the
per-row loop of detect_safety_concerns; a finding is appended only when
the concern list is nonempty. -/
def safetyRowFinding (row : TestRecord) : Option SafetyFinding :=
  let checked := tfaCheck row (endotoxinCheck row)
  if checked.1.isEmpty then none
  else
    some { tracking_id := row.tracking_id
           supplier := row.supplierName
           peptide := row.peptideType
           concerns := checked.1
           severity := checked.2 }

/-- detect_safety_concerns: one pass over every row of the working set. -/
def detect_safety_concerns (df : List TestRecord) : List SafetyFinding :=
  df.filterMap safetyRowFinding

/-- One entry of the analyze_market_trends result for a product
category. -/
structure TrendEntry where
  peptide : String
  avg_purity : Option ℚ
  trend : String
  sample_count : Nat
  deriving DecidableEq, Repr

/-- The rows of the working set belonging to one product category, in
working-set (descending createdAt) order: no re-sort happens here. -/
def peptideRecords (df : List TestRecord) (p : String) : List TestRecord :=
  df.filter (fun r => r.peptideType == p)

/-- Last three records of a slice: the tail(3) of the source. -/
def tail3 (rs : List TestRecord) : List TestRecord :=
  rs.drop (rs.length - 3)

/-- Strict comparison of two possibly-NaN means, as pandas evaluates
recent_avg > older_avg: any comparison involving NaN is false. -/
def optLtB : Option ℚ → Option ℚ → Bool
  | some a, some b => decide (a < b)
  | _, _ => false

/-- The trend entry produced for one product category, if any: the body
of the per-category loop of analyze_market_trends. -/
def trendFor (df : List TestRecord) (p : String) : Option TrendEntry :=
  let pdf := peptideRecords df p
  if 5 ≤ pdf.length then
    some { peptide := p
           avg_purity := (optMean pdf).map round1
           trend :=
             if optLtB (optMean (tail3 pdf)) (optMean (pdf.take 3)) then
               "improving"
             else "declining"
           sample_count := pdf.length }
  else none

/-- analyze_market_trends: one pass over the distinct product categories
in first-appearance order. -/
def analyze_market_trends (df : List TestRecord) : List TrendEntry :=
  (uniqueFirst (df.map (fun r => r.peptideType))).filterMap (trendFor df)

/-- An element of the critical partition built by send_alerts: either a
decline finding dict or a safety finding dict. -/
inductive CriticalItem where
  | decl (d : DeclineFinding)
  | safe (s : SafetyFinding)
  deriving DecidableEq, Repr

/-- The critical partition of send_alerts: the CRITICAL decline findings
followed by the CRITICAL safety findings.  Variance findings are not
consulted. -/
def criticalItems (declining : List DeclineFinding)
    (safety : List SafetyFinding) : List CriticalItem :=
  (declining.filter (fun d => decide (d.severity = Severity.CRITICAL))).map
      CriticalItem.decl
    ++ (safety.filter (fun f => decide (f.severity = Severity.CRITICAL))).map
      CriticalItem.safe

/-- The supplier line of a critical-alert section block. -/
def itemSupplier : CriticalItem → String
  | CriticalItem.decl d => d.supplier
  | CriticalItem.safe f => f.supplier

/-- The primary concern line of a critical-alert section block: the first
concern string of a safety finding, else the formatted decline drop (the
dict.get default of the source). -/
def itemConcern : CriticalItem → String
  | CriticalItem.decl d => "Quality drop: " ++ toString d.drop ++ "%"
  | CriticalItem.safe f => f.concerns.headI

/-- The mrkdwn text of one section block of the critical message. -/
def renderSection (it : CriticalItem) : String :=
  "*" ++ itemSupplier it ++ "*" ++ "\n" ++ itemConcern it

/-- A message posted to the webhook sink: either the block-structured
critical alert (carrying its rendered section texts) or the flat weekly
summary (carrying the three counts of its text line and the attachment
text). -/
inductive SlackMessage where
  | critical (sections : List String)
  | summary (total declining safety : Nat) (attachment : String)
  deriving DecidableEq, Repr

/-- Recognizes the weekly-summary message. -/
def isSummaryMsg : SlackMessage → Bool
  | SlackMessage.summary _ _ _ _ => true
  | SlackMessage.critical _ => false

/-- send_alerts, modelled by the list of messages posted to the webhook:
nothing when no webhook is configured; otherwise the critical message
(capped at the first three critical findings) when the critical partition
is nonempty, always followed by exactly one summary message whose
attachment is the first 500 characters of the insight brief with the
marker appended. -/
def send_alerts (webhookConfigured : Bool) (declining : List DeclineFinding)
    (_variance : List VarianceFinding) (safety : List SafetyFinding)
    (insights : String) (total_tests : Nat) : List SlackMessage :=
  if webhookConfigured then
    let critical := criticalItems declining safety
    (if critical.isEmpty then []
     else [SlackMessage.critical ((critical.take 3).map renderSection)])
      ++ [SlackMessage.summary total_tests declining.length safety.length
            (insights.take 500 ++ "...")]
  else []

/-- The observable outcome of one pipeline run: the findings of each
detector, whether the text-generation request was made, and the webhook
messages posted. -/
structure RunResult where
  declining : List DeclineFinding
  variance : List VarianceFinding
  safety : List SafetyFinding
  claudeCalled : Bool
  messages : List SlackMessage
  deriving DecidableEq, Repr

/-- The run method, from the fetched working set onward.  The insight
brief returned by the text-generation collaborator is an opaque
parameter; it is only requested (claudeCalled) on the non-empty path.
An empty working set short-circuits after stage 1 with no findings and
no external calls; the function is total, so that path is not an
error. -/
def run (df : List TestRecord) (webhookConfigured : Bool)
    (insights : String) : RunResult :=
  if df.length = 0 then
    { declining := [], variance := [], safety := []
      claudeCalled := false, messages := [] }
  else
    let declining := detect_declining_suppliers df
    let variance := detect_batch_variance df
    let safety := detect_safety_concerns df
    { declining := declining, variance := variance, safety := safety
      claudeCalled := true
      messages :=
        send_alerts webhookConfigured declining variance safety insights
          df.length }

/-- Convenience constructor for concrete test records used by witnesses
and counterexamples. -/
def mkRec (i : Nat) (sup pep : String) (pur : Option ℚ) (cAt : Int)
    (endo tfa : Option ℚ) : TestRecord :=
  { id := i, tracking_id := "T" ++ toString i, peptideType := pep
    supplierName := sup, purity := pur, endotoxin := endo
    residualTfa := tfa, createdAt := cAt, aiGrade := none, verified := none }

/-- Concrete record exceeding both safety thresholds at once:
endotoxin 2.5 (above the 2.0 CRITICAL bound) and residual TFA 2.0 (above
the 1.5 WARNING bound). -/
def c1record : TestRecord :=
  mkRec 1 "Acme" "BPC-157" (some 99) 1 (some 2.5) (some 2.0)

/-- Concrete working set with a single supplier holding exactly four
records: ascending by createdAt the purities are 90, 90, 90, 99, so the
position [3,6) window holds the lone value 99. -/
def c2df : List TestRecord :=
  [ mkRec 4 "Gamma" "BPC-157" (some 99) 4 none none
  , mkRec 3 "Gamma" "BPC-157" (some 90) 3 none none
  , mkRec 2 "Gamma" "BPC-157" (some 90) 2 none none
  , mkRec 1 "Gamma" "BPC-157" (some 90) 1 none none ]

/-- Concrete working set like c2df, used to witness the decline emission
rule: four records of one supplier, purities ascending 90, 90, 90, 99. -/
def c3df : List TestRecord :=
  [ mkRec 4 "Delta" "BPC-157" (some 99) 4 none none
  , mkRec 3 "Delta" "BPC-157" (some 90) 3 none none
  , mkRec 2 "Delta" "BPC-157" (some 90) 2 none none
  , mkRec 1 "Delta" "BPC-157" (some 90) 1 none none ]

/-- Concrete working set with one supplier and purities 90, 95, 100, the
range-10 example of the specification. -/
def c4df : List TestRecord :=
  [ mkRec 3 "Beta" "TB-500" (some 100) 3 none none
  , mkRec 2 "Beta" "TB-500" (some 95) 2 none none
  , mkRec 1 "Beta" "TB-500" (some 90) 1 none none ]

/-- Concrete working set with one product category holding five records
of identical purity 90: an exact trend tie. -/
def c6df : List TestRecord :=
  [ mkRec 5 "S1" "P1" (some 90) 5 none none
  , mkRec 4 "S1" "P1" (some 90) 4 none none
  , mkRec 3 "S1" "P1" (some 90) 3 none none
  , mkRec 2 "S1" "P1" (some 90) 2 none none
  , mkRec 1 "S1" "P1" (some 90) 1 none none ]

/-- Concrete CRITICAL decline finding for the dispatcher witness. -/
def wd1 : DeclineFinding :=
  { supplier := "S1", peptide := "P", previous_avg := 95, recent_avg := 85
    drop := 10, sample_count := 7, severity := Severity.CRITICAL }

/-- Second concrete CRITICAL decline finding. -/
def wd2 : DeclineFinding := { wd1 with supplier := "S2", drop := 6 }

/-- Concrete WARNING decline finding. -/
def wd3 : DeclineFinding :=
  { wd1 with supplier := "S3", drop := 3, severity := Severity.WARNING }

/-- Concrete CRITICAL safety finding. -/
def ws1 : SafetyFinding :=
  { tracking_id := "T1", supplier := "S4", peptide := "P"
    concerns := ["High endotoxin: 3 EU/mg"], severity := Severity.CRITICAL }

/-- Concrete WARNING safety finding. -/
def ws2 : SafetyFinding := { ws1 with supplier := "S5", severity := Severity.WARNING }

/-- Concrete WARNING variance finding. -/
def wv1 : VarianceFinding :=
  { supplier := "S6", peptide := "P", mean := some 90, std_dev_sq := some 4
    range := 6, batches := 3, severity := Severity.WARNING }

/-- Concrete safety-scanner row for the severity invariant witness:
endotoxin 3, residual TFA absent. -/
def w10rec : TestRecord := mkRec 1 "Acme" "BPC-157" (some 99) 1 (some 3) none

theorem mem_uniqueFirstAux (s : String) (l : List String) :
    ∀ seen, s ∈ uniqueFirstAux seen l ↔ (s ∈ l ∧ s ∉ seen) := by
  induction l with
  | nil => intro seen; simp [uniqueFirstAux]
  | cons x xs ih =>
    intro seen
    by_cases hx : x ∈ seen
    · rw [uniqueFirstAux, if_pos hx, ih seen]
      constructor
      · rintro ⟨hs, hn⟩
        exact ⟨List.mem_cons_of_mem _ hs, hn⟩
      · rintro ⟨hs, hn⟩
        rcases List.mem_cons.mp hs with rfl | hs2
        · exact absurd hx hn
        · exact ⟨hs2, hn⟩
    · rw [uniqueFirstAux, if_neg hx]
      constructor
      · intro hmem
        rcases List.mem_cons.mp hmem with rfl | hs2
        · exact ⟨List.mem_cons_self _ _, hx⟩
        · obtain ⟨hs, hn⟩ := (ih (x :: seen)).mp hs2
          exact ⟨List.mem_cons_of_mem _ hs,
            fun hseen => hn (List.mem_cons_of_mem _ hseen)⟩
      · rintro ⟨hs, hn⟩
        rcases List.mem_cons.mp hs with rfl | hs2
        · exact List.mem_cons_self _ _
        · by_cases hsx : s = x
          · exact hsx ▸ List.mem_cons_self _ _
          · refine List.mem_cons_of_mem _ ((ih (x :: seen)).mpr ⟨hs2, ?_⟩)
            intro hmem
            rcases List.mem_cons.mp hmem with h1 | h2
            · exact hsx h1
            · exact hn h2

theorem mem_uniqueFirst (s : String) (l : List String) :
    s ∈ uniqueFirst l ↔ s ∈ l := by
  rw [uniqueFirst, mem_uniqueFirstAux]
  simp

theorem nodup_uniqueFirstAux (l : List String) :
    ∀ seen, (uniqueFirstAux seen l).Nodup := by
  induction l with
  | nil => intro seen; simp [uniqueFirstAux]
  | cons x xs ih =>
    intro seen
    by_cases hx : x ∈ seen
    · rw [uniqueFirstAux, if_pos hx]; exact ih seen
    · rw [uniqueFirstAux, if_neg hx]
      refine List.nodup_cons.mpr ⟨?_, ih (x :: seen)⟩
      intro hmem
      exact ((mem_uniqueFirstAux x xs (x :: seen)).mp hmem).2
        (List.mem_cons_self _ _)

theorem nodup_uniqueFirst (l : List String) : (uniqueFirst l).Nodup :=
  nodup_uniqueFirstAux l []

theorem length_insertAsc (r : TestRecord) (l : List TestRecord) :
    (insertAsc r l).length = l.length + 1 := by
  induction l with
  | nil => rfl
  | cons x xs ih =>
    rw [insertAsc]
    split
    · rfl
    · simp [List.length_cons, ih]

theorem length_sortAsc (l : List TestRecord) :
    (sortAsc l).length = l.length := by
  induction l with
  | nil => rfl
  | cons x xs ih => rw [sortAsc, length_insertAsc, ih, List.length_cons]

theorem key_eq_of_filterMap_mem {β : Type} {g : String → Option β}
    {key : β → String} (hkey : ∀ a b, g a = some b → key b = a)
    {l : List String} {b : β} (hb : b ∈ l.filterMap g) :
    g (key b) = some b := by
  obtain ⟨a, _, hga⟩ := List.mem_filterMap.mp hb
  rw [hkey a b hga]
  exact hga

theorem key_mem_of_filterMap_mem {β : Type} {g : String → Option β}
    {key : β → String} (hkey : ∀ a b, g a = some b → key b = a)
    {l : List String} {b : β} (hb : b ∈ l.filterMap g) : key b ∈ l := by
  obtain ⟨a, ha, hga⟩ := List.mem_filterMap.mp hb
  rw [hkey a b hga]
  exact ha

theorem exists_mem_filterMap_key_iff {β : Type} {g : String → Option β}
    {key : β → String} (hkey : ∀ a b, g a = some b → key b = a)
    (l : List String) (s : String) :
    (∃ b ∈ l.filterMap g, key b = s) ↔ (s ∈ l ∧ ∃ b, g s = some b) := by
  constructor
  · rintro ⟨b, hb, rfl⟩
    exact ⟨key_mem_of_filterMap_mem hkey hb, b, key_eq_of_filterMap_mem hkey hb⟩
  · rintro ⟨hs, b, hgb⟩
    exact ⟨b, List.mem_filterMap.mpr ⟨s, hs, hgb⟩, hkey s b hgb⟩

theorem countP_filterMap_key_le_one {β : Type} {g : String → Option β}
    {key : β → String} (hkey : ∀ a b, g a = some b → key b = a)
    (s : String) (l : List String) (hnd : l.Nodup) :
    (l.filterMap g).countP (fun b => key b == s) ≤ 1 := by
  induction l with
  | nil => simp
  | cons x xs ih =>
    obtain ⟨hx, hxs⟩ := List.nodup_cons.mp hnd
    rw [List.filterMap_cons]
    cases hgx : g x with
    | none => exact ih hxs
    | some b =>
      rw [List.countP_cons]
      by_cases hbs : (key b == s) = true
      · have hkx : key b = x := hkey x b hgx
        have hxeq : x = s := by rw [← hkx]; exact eq_of_beq hbs
        have h0 : (xs.filterMap g).countP (fun c => key c == s) = 0 := by
          rw [List.countP_eq_zero]
          intro c hc
          have hcm : key c ∈ xs := key_mem_of_filterMap_mem hkey hc
          simp only [beq_iff_eq]
          intro hcs
          have hxc : key c = x := by rw [hcs, ← hxeq]
          exact hx (hxc ▸ hcm)
        simp [hbs, h0]
      · simp only [hbs, if_false]
        simpa using ih hxs

theorem mem_map_supplier_of_length {df : List TestRecord} {s : String}
    (h : 0 < (supplierRecords df s).length) :
    s ∈ df.map (fun r => r.supplierName) := by
  rcases hE : supplierRecords df s with _ | ⟨x, xs⟩
  · rw [hE] at h; simp at h
  · have hx : x ∈ supplierRecords df s := by
      rw [hE]; exact List.mem_cons_self _ _
    obtain ⟨hxdf, hxs⟩ := List.mem_filter.mp hx
    refine List.mem_map.mpr ⟨x, hxdf, ?_⟩
    simpa using hxs

theorem mem_map_peptide_of_length {df : List TestRecord} {p : String}
    (h : 0 < (peptideRecords df p).length) :
    p ∈ df.map (fun r => r.peptideType) := by
  rcases hE : peptideRecords df p with _ | ⟨x, xs⟩
  · rw [hE] at h; simp at h
  · have hx : x ∈ peptideRecords df p := by
      rw [hE]; exact List.mem_cons_self _ _
    obtain ⟨hxdf, hxs⟩ := List.mem_filter.mp hx
    refine List.mem_map.mpr ⟨x, hxdf, ?_⟩
    simpa using hxs

theorem declineFor_supplier {df : List TestRecord} {s : String}
    {f : DeclineFinding} (h : declineFor df s = some f) : f.supplier = s := by
  simp only [declineFor] at h
  split at h
  · split at h
    · split at h
      · cases h; rfl
      · cases h
    · cases h
  · cases h

theorem declineFor_eq_some_iff {df : List TestRecord} {s : String} {p r : ℚ}
    (hp : previousAvgOf (sortAsc (supplierRecords df s)) = some p)
    (hr : recentAvgOf (sortAsc (supplierRecords df s)) = some r) :
    (∃ f, declineFor df s = some f) ↔
      (4 ≤ (supplierRecords df s).length ∧ 2.0 < p - r) := by
  by_cases h4 : 4 ≤ (supplierRecords df s).length <;>
    by_cases h2 : (2.0 : ℚ) < p - r <;>
    simp [declineFor, hp, hr, length_sortAsc, h4, h2]

theorem declineFor_severity {df : List TestRecord} {s : String} {p r : ℚ}
    {f : DeclineFinding}
    (hp : previousAvgOf (sortAsc (supplierRecords df s)) = some p)
    (hr : recentAvgOf (sortAsc (supplierRecords df s)) = some r)
    (h : declineFor df s = some f) :
    2.0 < p - r ∧
      f.severity =
        (if 5.0 < p - r then Severity.CRITICAL else Severity.WARNING) := by
  simp only [declineFor, hp, hr] at h
  split at h
  · split at h
    case isTrue h2 => cases h; exact ⟨h2, rfl⟩
    case isFalse => cases h
  · cases h

theorem varianceFor_supplier {df : List TestRecord} {s : String}
    {f : VarianceFinding} (h : varianceFor df s = some f) : f.supplier = s := by
  simp only [varianceFor] at h
  split at h
  · split at h
    · split at h
      · cases h; rfl
      · cases h
    · cases h
  · cases h

theorem varianceFor_eq_some_iff {df : List TestRecord} {s : String} {rg : ℚ}
    (hrg : optRange (supplierRecords df s) = some rg) :
    (∃ f, varianceFor df s = some f) ↔
      (3 ≤ (supplierRecords df s).length ∧ 5.0 < rg) := by
  by_cases h3 : 3 ≤ (supplierRecords df s).length <;>
    by_cases h5 : (5.0 : ℚ) < rg <;>
    simp [varianceFor, hrg, h3, h5]

theorem varianceFor_warning {df : List TestRecord} {s : String}
    {f : VarianceFinding} (h : varianceFor df s = some f) :
    f.severity = Severity.WARNING := by
  simp only [varianceFor] at h
  split at h
  · split at h
    · split at h
      · cases h; rfl
      · cases h
    · cases h
  · cases h

theorem trendFor_peptide {df : List TestRecord} {p : String}
    {e : TrendEntry} (h : trendFor df p = some e) : e.peptide = p := by
  simp only [trendFor] at h
  split at h
  · cases h; rfl
  · cases h

theorem trendFor_eq_some_iff (df : List TestRecord) (p : String) :
    (∃ e, trendFor df p = some e) ↔ 5 ≤ (peptideRecords df p).length := by
  by_cases h5 : 5 ≤ (peptideRecords df p).length <;> simp [trendFor, h5]

theorem trendFor_trend_value {df : List TestRecord} {c : String} {r o : ℚ}
    {e : TrendEntry}
    (hr : optMean ((peptideRecords df c).take 3) = some r)
    (ho : optMean (tail3 (peptideRecords df c)) = some o)
    (h : trendFor df c = some e) :
    (e.trend = "improving" ↔ o < r) ∧ (e.trend = "declining" ↔ r ≤ o) := by
  simp only [trendFor, hr, ho] at h
  split at h
  · cases h
    simp only [optLtB]
    by_cases hor : o < r
    · simp [hor, not_le.mpr hor]
    · simp [hor, not_lt.mp hor]
  · cases h

theorem safetyRowFinding_severity {row : TestRecord} {f : SafetyFinding}
    (h : safetyRowFinding row = some f) :
    f.severity = Severity.WARNING ∨ f.severity = Severity.CRITICAL := by
  obtain ⟨i, tid, pep, sup, pur, endo, tfa, cAt, ag, ver⟩ := row
  rcases endo with _ | e <;> rcases tfa with _ | t <;>
    simp only [safetyRowFinding, tfaCheck, endotoxinCheck] at h <;>
    split_ifs at h <;> (try cases h) <;> simp_all

attribute [local semireducible] Rat.add Rat.sub Rat.mul Rat.inv Rat.ofScientific in
/-- C1: evaluation of the Safety Scanner at a record whose endotoxin is
2.5 (present and above 2.0) and whose residual solvent is 2.0 (present
and above 1.5).  The claim and the specification require the resolved
severity to stay CRITICAL; the code emits WARNING because the later
residual-solvent check reassigns the severity, downgrading the CRITICAL
already set by the endotoxin check.  Both concern strings are present
(concern count 2), showing both checks fired. -/
theorem safety_downgrade_at_combined_thresholds :
    (detect_safety_concerns [c1record]).map
        (fun f => (f.severity, f.concerns.length)) =
      [(Severity.WARNING, 2)] := by
  decide

attribute [local semireducible] Rat.add Rat.sub Rat.mul Rat.inv Rat.ofScientific in
/-- C2 counterexample: the supplier of c2df has exactly 4 records (fewer
than 7), yet previousAvg does not fall back to recentAvg (it is 99, the
mean of positions [3,6), while recentAvg is 90), the drop is 9, and a
CRITICAL DeclineFinding IS emitted, contradicting the claim that such a
supplier yields a zero drop and no finding. -/
theorem decline_window_counterexample :
    (detect_declining_suppliers c2df).map
        (fun f => (f.supplier, f.previous_avg, f.recent_avg, f.severity)) =
      [("Gamma", 99, 90, Severity.CRITICAL)]
    ∧ 4 ≤ (supplierRecords c2df "Gamma").length
    ∧ (supplierRecords c2df "Gamma").length < 7 := by
  refine ⟨by decide, by decide, by decide⟩

/-- C2 amended: for every supplier subsequence with at least 4 records,
the guard len greater than 3 of the source always holds, so previousAvg
is always the mean purity of positions [3,6) of the ascending-sorted
subsequence; the fallback to recentAvg is unreachable there, and (per the
counterexample) a supplier with 4 to 6 records can still produce a
positive drop and a finding. -/
theorem decline_previous_window (sdf : List TestRecord)
    (h : 4 ≤ sdf.length) :
    previousAvgOf sdf = optMean ((sdf.drop 3).take 3) := by
  unfold previousAvgOf
  rw [if_pos (by omega)]

/-- Witness for decline_previous_window at the concrete four-record
ascending subsequence obtained from c2df. -/
theorem decline_previous_window_witness :
    4 ≤ (sortAsc (supplierRecords c2df "Gamma")).length
    ∧ previousAvgOf (sortAsc (supplierRecords c2df "Gamma")) =
        optMean (((sortAsc (supplierRecords c2df "Gamma")).drop 3).take 3) :=
  ⟨by decide, decline_previous_window (sortAsc (supplierRecords c2df "Gamma"))
    (by decide)⟩

/-- C3: for any working set and supplier whose previous and recent
averages are the numbers p and r, the Decline Detector emits a finding
for that supplier iff the supplier has at least 4 records and the drop
p - r exceeds 2.0 (in particular no finding when the drop is at most 2.0
or the supplier has fewer than 4 records); and every finding emitted for
that supplier has severity CRITICAL iff the drop exceeds 5.0 and WARNING
iff the drop is in (2.0, 5.0]. -/
theorem decline_emission_rule (df : List TestRecord) (s : String) (p r : ℚ)
    (hp : previousAvgOf (sortAsc (supplierRecords df s)) = some p)
    (hr : recentAvgOf (sortAsc (supplierRecords df s)) = some r) :
    ((∃ f ∈ detect_declining_suppliers df, f.supplier = s) ↔
        (4 ≤ (supplierRecords df s).length ∧ 2.0 < p - r))
    ∧ (∀ f ∈ detect_declining_suppliers df, f.supplier = s →
        ((f.severity = Severity.CRITICAL ↔ 5.0 < p - r)
          ∧ (f.severity = Severity.WARNING ↔
              (2.0 < p - r ∧ p - r ≤ 5.0)))) := by
  have hkey : ∀ a b, declineFor df a = some b → b.supplier = a :=
    fun a b hb => declineFor_supplier hb
  constructor
  · rw [show detect_declining_suppliers df =
        (uniqueFirst (df.map (fun x => x.supplierName))).filterMap
          (declineFor df) from rfl,
      exists_mem_filterMap_key_iff hkey, mem_uniqueFirst,
      declineFor_eq_some_iff hp hr]
    constructor
    · exact fun h => h.2
    · intro h
      exact ⟨mem_map_supplier_of_length (by omega), h⟩
  · intro f hf hfs
    have hsome : declineFor df s = some f := by
      have hk := key_eq_of_filterMap_mem hkey hf
      rwa [hfs] at hk
    obtain ⟨h2, hsev⟩ := declineFor_severity hp hr hsome
    rw [hsev]
    by_cases h5 : (5.0 : ℚ) < p - r
    · rw [if_pos h5]
      constructor
      · simp [h5]
      · simp [not_le.mpr h5]
    · rw [if_neg h5]
      constructor
      · simp [h5]
      · simp [h2, not_lt.mp h5]

attribute [local semireducible] Rat.add Rat.sub Rat.mul Rat.inv Rat.ofScientific in
/-- Witness for decline_emission_rule at c3df, supplier Delta, with
previous average 99 and recent average 90. -/
theorem decline_emission_rule_witness :
    previousAvgOf (sortAsc (supplierRecords c3df "Delta")) = some 99
    ∧ recentAvgOf (sortAsc (supplierRecords c3df "Delta")) = some 90
    ∧ (((∃ f ∈ detect_declining_suppliers c3df, f.supplier = "Delta") ↔
          (4 ≤ (supplierRecords c3df "Delta").length ∧ 2.0 < (99 : ℚ) - 90))
        ∧ (∀ f ∈ detect_declining_suppliers c3df, f.supplier = "Delta" →
            ((f.severity = Severity.CRITICAL ↔ 5.0 < (99 : ℚ) - 90)
              ∧ (f.severity = Severity.WARNING ↔
                  (2.0 < (99 : ℚ) - 90 ∧ (99 : ℚ) - 90 ≤ 5.0))))) :=
  ⟨by decide, by decide,
    decline_emission_rule c3df "Delta" 99 90 (by decide) (by decide)⟩

/-- C8: a run whose record source returns zero eligible records
terminates right after stage 1 with no findings, no text-generation
request and no webhook message, whatever the webhook configuration and
whatever brief the collaborator would have produced; the run function is
total, so this path is a successful termination, not an error. -/
theorem empty_source_short_circuit (webhookConfigured : Bool)
    (insights : String) :
    run [] webhookConfigured insights =
      { declining := [], variance := [], safety := []
        claudeCalled := false, messages := [] } := rfl

/-- C9: for every working set and supplier name, the Decline Detector
emits at most one finding carrying that supplier and the Variance
Analyzer emits at most one finding carrying that supplier. -/
theorem at_most_one_finding_per_supplier (df : List TestRecord)
    (s : String) :
    (detect_declining_suppliers df).countP (fun f => f.supplier == s) ≤ 1
    ∧ (detect_batch_variance df).countP (fun f => f.supplier == s) ≤ 1 :=
  ⟨countP_filterMap_key_le_one (fun _ _ hb => declineFor_supplier hb) s _
      (nodup_uniqueFirst _),
    countP_filterMap_key_le_one (fun _ _ hb => varianceFor_supplier hb) s _
      (nodup_uniqueFirst _)⟩

/-- C10: every finding emitted by the Safety Scanner has severity
WARNING or CRITICAL, never INFO: a finding is appended only when some
concern fired, and each concern branch overwrites the initial INFO. -/
theorem safety_severity_never_info (df : List TestRecord) :
    ∀ f ∈ detect_safety_concerns df,
      f.severity = Severity.WARNING ∨ f.severity = Severity.CRITICAL := by
  intro f hf
  obtain ⟨row, _, hrow⟩ := List.mem_filterMap.mp hf
  exact safetyRowFinding_severity hrow

attribute [local semireducible] Rat.add Rat.sub Rat.mul Rat.inv Rat.ofScientific in
/-- Witness for safety_severity_never_info at the one-record working set
w10rec, whose finding has severity CRITICAL. -/
theorem safety_severity_never_info_witness :
    ({ tracking_id := "T1", supplier := "Acme", peptide := "BPC-157"
       concerns := ["High endotoxin: 3 EU/mg"]
       severity := Severity.CRITICAL } : SafetyFinding) ∈
        detect_safety_concerns [w10rec]
    ∧ (({ tracking_id := "T1", supplier := "Acme", peptide := "BPC-157"
          concerns := ["High endotoxin: 3 EU/mg"]
          severity := Severity.CRITICAL } : SafetyFinding).severity =
            Severity.WARNING
        ∨ ({ tracking_id := "T1", supplier := "Acme", peptide := "BPC-157"
             concerns := ["High endotoxin: 3 EU/mg"]
             severity := Severity.CRITICAL } : SafetyFinding).severity =
            Severity.CRITICAL) :=
  ⟨by decide, safety_severity_never_info [w10rec] _ (by decide)⟩

/-- C4: for any working set and supplier whose max minus min purity
range is the number rg, the Variance Analyzer emits a finding for that
supplier iff the supplier has at least 3 records and rg strictly exceeds
5.0 (no finding at exactly 5.0); and every emitted VarianceFinding has
severity WARNING, never CRITICAL. -/
theorem variance_emission_rule (df : List TestRecord) (s : String) (rg : ℚ)
    (hrg : optRange (supplierRecords df s) = some rg) :
    ((∃ f ∈ detect_batch_variance df, f.supplier = s) ↔
        (3 ≤ (supplierRecords df s).length ∧ 5.0 < rg))
    ∧ (∀ f ∈ detect_batch_variance df, f.severity = Severity.WARNING) := by
  have hkey : ∀ a b, varianceFor df a = some b → b.supplier = a :=
    fun a b hb => varianceFor_supplier hb
  constructor
  · rw [show detect_batch_variance df =
        (uniqueFirst (df.map (fun x => x.supplierName))).filterMap
          (varianceFor df) from rfl,
      exists_mem_filterMap_key_iff hkey, mem_uniqueFirst,
      varianceFor_eq_some_iff hrg]
    constructor
    · exact fun h => h.2
    · intro h
      exact ⟨mem_map_supplier_of_length (by omega), h⟩
  · intro f hf
    obtain ⟨a, _, ha⟩ := List.mem_filterMap.mp hf
    exact varianceFor_warning ha

attribute [local semireducible] Rat.add Rat.sub Rat.mul Rat.inv Rat.ofScientific in
/-- Witness for variance_emission_rule at c4df, supplier Beta, whose
purities 90, 95, 100 give range 10. -/
theorem variance_emission_rule_witness :
    optRange (supplierRecords c4df "Beta") = some 10
    ∧ (((∃ f ∈ detect_batch_variance c4df, f.supplier = "Beta") ↔
          (3 ≤ (supplierRecords c4df "Beta").length ∧ 5.0 < (10 : ℚ)))
        ∧ (∀ f ∈ detect_batch_variance c4df,
            f.severity = Severity.WARNING)) :=
  ⟨by decide, variance_emission_rule c4df "Beta" 10 (by decide)⟩

/-- C6: for any working set and product category whose first-3 mean is r
and last-3 mean is o, the Trend Aggregator produces an entry for that
category iff the category has at least 5 records in the working set (in
its given descending order, not re-sorted); and the entry trend is
improving iff r strictly exceeds o and declining otherwise, a tie
counting as declining. -/
theorem trend_rule (df : List TestRecord) (c : String) (r o : ℚ)
    (hr : optMean ((peptideRecords df c).take 3) = some r)
    (ho : optMean (tail3 (peptideRecords df c)) = some o) :
    ((∃ e ∈ analyze_market_trends df, e.peptide = c) ↔
        5 ≤ (peptideRecords df c).length)
    ∧ (∀ e ∈ analyze_market_trends df, e.peptide = c →
        ((e.trend = "improving" ↔ o < r)
          ∧ (e.trend = "declining" ↔ r ≤ o))) := by
  have hkey : ∀ a b, trendFor df a = some b → b.peptide = a :=
    fun a b hb => trendFor_peptide hb
  constructor
  · rw [show analyze_market_trends df =
        (uniqueFirst (df.map (fun x => x.peptideType))).filterMap
          (trendFor df) from rfl,
      exists_mem_filterMap_key_iff hkey, mem_uniqueFirst,
      trendFor_eq_some_iff]
    constructor
    · exact fun h => h.2
    · intro h
      exact ⟨mem_map_peptide_of_length (by omega), h⟩
  · intro e he hep
    have hsome : trendFor df c = some e := by
      have hk := key_eq_of_filterMap_mem hkey he
      rwa [hep] at hk
    exact trendFor_trend_value hr ho hsome

attribute [local semireducible] Rat.add Rat.sub Rat.mul Rat.inv Rat.ofScientific in
/-- Witness for trend_rule at c6df, category P1, five records of purity
90 each: an exact tie, classified declining. -/
theorem trend_rule_witness :
    optMean ((peptideRecords c6df "P1").take 3) = some 90
    ∧ optMean (tail3 (peptideRecords c6df "P1")) = some 90
    ∧ (((∃ e ∈ analyze_market_trends c6df, e.peptide = "P1") ↔
          5 ≤ (peptideRecords c6df "P1").length)
        ∧ (∀ e ∈ analyze_market_trends c6df, e.peptide = "P1" →
            ((e.trend = "improving" ↔ (90 : ℚ) < 90)
              ∧ (e.trend = "declining" ↔ (90 : ℚ) ≤ 90)))) :=
  ⟨by decide, by decide, trend_rule c6df "P1" 90 90 (by decide) (by decide)⟩

/-- C5: the critical partition of the Alert Dispatcher holds exactly the
CRITICAL decline findings and the CRITICAL safety findings (a variance
finding can never appear in it); when the partition is nonempty the
high-priority message carries exactly the first 3 critical findings
rendered as sections, hence at most 3; and exactly one summary message
is sent regardless of the critical count, given a configured sink. -/
theorem alert_dispatch_rule (declining : List DeclineFinding)
    (variance : List VarianceFinding) (safety : List SafetyFinding)
    (insights : String) (total_tests : Nat) :
    (∀ x, x ∈ criticalItems declining safety ↔
        ((∃ d ∈ declining,
            d.severity = Severity.CRITICAL ∧ x = CriticalItem.decl d)
          ∨ (∃ f ∈ safety,
              f.severity = Severity.CRITICAL ∧ x = CriticalItem.safe f)))
    ∧ (∀ secs, SlackMessage.critical secs ∈
          send_alerts true declining variance safety insights total_tests →
        (secs = ((criticalItems declining safety).take 3).map renderSection
          ∧ secs.length ≤ 3))
    ∧ (send_alerts true declining variance safety insights
        total_tests).countP isSummaryMsg = 1 := by
  refine ⟨?_, ?_, ?_⟩
  · intro x
    simp only [criticalItems, List.mem_append, List.mem_map, List.mem_filter,
      decide_eq_true_eq]
    constructor
    · rintro (⟨d, ⟨hd, hsev⟩, rfl⟩ | ⟨f, ⟨hf, hsev⟩, rfl⟩)
      · exact Or.inl ⟨d, hd, hsev, rfl⟩
      · exact Or.inr ⟨f, hf, hsev, rfl⟩
    · rintro (⟨d, hd, hsev, rfl⟩ | ⟨f, hf, hsev, rfl⟩)
      · exact Or.inl ⟨d, ⟨hd, hsev⟩, rfl⟩
      · exact Or.inr ⟨f, ⟨hf, hsev⟩, rfl⟩
  · intro secs hmem
    simp only [send_alerts, if_true] at hmem
    by_cases hc : (criticalItems declining safety).isEmpty
    · rw [if_pos hc, List.nil_append] at hmem
      simp at hmem
    · rw [if_neg hc, List.cons_append, List.nil_append] at hmem
      rcases List.mem_cons.mp hmem with heq | hmem2
      · injection heq with h
        subst h
        refine ⟨rfl, ?_⟩
        rw [List.length_map]
        exact List.length_take_le 3 _
      · simp at hmem2
  · by_cases hc : (criticalItems declining safety).isEmpty <;>
      simp [send_alerts, hc, List.countP_cons, List.countP_append,
        isSummaryMsg]

/-- Witness for alert_dispatch_rule at the concrete findings of the
specification example: two CRITICAL declines, one CRITICAL safety
finding and three WARNING findings; the first CRITICAL decline is in the
critical partition and exactly one summary message is emitted. -/
theorem alert_dispatch_rule_witness :
    (CriticalItem.decl wd1 ∈ criticalItems [wd1, wd2, wd3] [ws1, ws2])
    ∧ (send_alerts true [wd1, wd2, wd3] [wv1] [ws1, ws2] "brief" 6).countP
        isSummaryMsg = 1 :=
  ⟨((alert_dispatch_rule [wd1, wd2, wd3] [wv1] [ws1, ws2] "brief" 6).1
      (CriticalItem.decl wd1)).mpr (Or.inl ⟨wd1, by decide, by decide, rfl⟩),
    (alert_dispatch_rule [wd1, wd2, wd3] [wv1] [ws1, ws2] "brief" 6).2.2⟩

/-- C7 counterexample: with the two-character brief hi (well under 500
characters) the summary attachment is hi followed by the marker, not the
unmarked, unmodified brief the claim requires for briefs of at most 500
characters: the code appends the marker unconditionally. -/
theorem summary_truncation_counterexample :
    "hi".length ≤ 500
    ∧ send_alerts true [] [] [] "hi" 0 =
        [SlackMessage.summary 0 0 0 "hi..."]
    ∧ "hi..." ≠ "hi" := by
  have h2 : "hi".take 500 = "hi" := by rw [String.take_eq]; decide
  exact ⟨by decide, by simp [send_alerts, criticalItems, h2], by decide⟩

/-- C7 amended: the summary message carries the total record count, the
decline count, the safety count and the first 500 characters of the
insight brief with the truncation marker appended unconditionally, even
when the brief is 500 characters or fewer. -/
theorem summary_message_content (declining : List DeclineFinding)
    (variance : List VarianceFinding) (safety : List SafetyFinding)
    (insights : String) (total_tests : Nat) :
    ∀ tt dc sc att,
      SlackMessage.summary tt dc sc att ∈
        send_alerts true declining variance safety insights total_tests →
      (tt = total_tests ∧ dc = declining.length ∧ sc = safety.length
        ∧ att = insights.take 500 ++ "...") := by
  intro tt dc sc att hmem
  simp only [send_alerts, if_true] at hmem
  by_cases hc : (criticalItems declining safety).isEmpty
  · rw [if_pos hc, List.nil_append] at hmem
    have heq := List.mem_singleton.mp hmem
    injection heq with h1 h2 h3 h4
    exact ⟨h1, h2, h3, h4⟩
  · rw [if_neg hc, List.cons_append, List.nil_append] at hmem
    rcases List.mem_cons.mp hmem with heq | hmem2
    · exact absurd heq (by simp)
    · have heq := List.mem_singleton.mp hmem2
      injection heq with h1 h2 h3 h4
      exact ⟨h1, h2, h3, h4⟩

/-- Witness for summary_message_content at the empty-findings working
set with the brief hi. -/
theorem summary_message_content_witness :
    (SlackMessage.summary 0 0 0 ("hi".take 500 ++ "...") ∈
        send_alerts true [] [] [] "hi" 0)
    ∧ (0 = 0 ∧ 0 = ([] : List DeclineFinding).length
        ∧ 0 = ([] : List SafetyFinding).length
        ∧ ("hi".take 500 ++ "...") = "hi".take 500 ++ "...") :=
  ⟨by simp [send_alerts, criticalItems],
    summary_message_content [] [] [] "hi" 0 0 0 0 _
      (by simp [send_alerts, criticalItems])⟩

end PeptIQ
